import Mathlib

/-!
# Verification of the llm-gateway request pipeline

Shallow embedding of the Go sources of `llm-gateway`:
middleware (auth, rate limit), the proxy handler `CreateCompletion`
(retry/failover loop, circuit breaker interaction, streaming pump,
deferred bookkeeping), and the tenant store read path.
Each definition is translated from the named Go function; deviations
(unmodelled real time, third-party dependency semantics) are recorded
in the doc comments.
-/

namespace LLMGateway

/-! ## Response bodies

The gateway answers errors with small JSON objects built with `gin.H`.
Each constructor below mirrors one literal shape appearing in the source:
`errorMsg m` is the one-field object with key "error" and value `m`;
`errorDetails` adds a "details" string field; `errorStatus` adds a numeric
"status" field; `errorLimit` adds a numeric "limit" field. -/
inductive RespBody where
  | errorMsg (msg : String)
  | errorDetails (msg details : String)
  | errorStatus (msg : String) (status : Nat)
  | errorLimit (msg : String) (limit : Int)
  deriving DecidableEq

/-! ## Data model (internal/store) -/

/-- Go struct `store.Tenant` (src/internal/proxy/handler_test.go part). -/
structure Tenant where
  apiKey : String
  tenantID : String
  name : String
  rpmLimit : Int
  tpmLimit : Int
  allowedModels : List String
  isActive : Bool
  deriving DecidableEq

/-- Go struct `store.Model` (src/unnamed/part_008). -/
structure Model where
  modelID : String
  providerName : String
  baseURLs : List String
  apiKeyEnv : String
  deriving DecidableEq

/-- Go struct `proxy.Message` (src/internal/proxy/handler.go). -/
structure ChatMessage where
  role : String
  content : String
  deriving DecidableEq

/-- Go struct `proxy.ChatRequest` (src/internal/proxy/handler.go). -/
structure ChatRequest where
  model : String
  messages : List ChatMessage
  stream : Bool
  deriving DecidableEq

/-- Defaults applied in step 3 of `DynamoDBTenantStore.GetTenant`:
`RPMLimit` and `TPMLimit` are replaced by 100 and 100000 when zero.
The Go code applies no default to `AllowedModels`. -/
def applyTenantDefaults (t : Tenant) : Tenant :=
  { t with
    rpmLimit := if t.rpmLimit = 0 then 100 else t.rpmLimit,
    tpmLimit := if t.tpmLimit = 0 then 100000 else t.tpmLimit }

/-- Decision structure of `DynamoDBTenantStore.GetTenant` after the DynamoDB
read returned `item` (`none` models a missing item): missing item yields
`ok none`; an inactive tenant yields the error "tenant is not active";
otherwise the tenant with read-time defaults applied is returned.
The in-process cache and transport/unmarshal failures are outside this
function; transport failure is the separate `Except.error` store outcome
over which the auth theorems quantify. -/
def dynGetTenant (item : Option Tenant) : Except String (Option Tenant) :=
  match item with
  | none => .ok none
  | some t =>
    if !t.isActive then .error "tenant is not active"
    else .ok (some (applyTenantDefaults t))

/-- The model-authorisation loop of `CreateCompletion` (handler.go lines
135-141): the request's model is allowed when some entry of the tenant's
allowed list is the literal "*" or equals the model. -/
def modelAllowed (tenant : Tenant) (model : String) : Bool :=
  tenant.allowedModels.any (fun m => m = "*" || m = model)

/-! ## Auth middleware (src/unnamed/part_002) -/

/-- Result of a gin middleware: an aborted request with a JSON status reply,
or proceeding to the next handler with the tenant stored in the context. -/
inductive AuthOutcome where
  | abort (status : Nat) (body : RespBody)
  | proceed (tenant : Tenant)
  deriving DecidableEq

/-- Model of `strings.Split(s, " ")`: split at every space, keeping empty fields
(structural implementation, used because the middleware splits the
`Authorization` header on the single-space separator). -/
def splitSpaces (s : String) : List String :=
  (go s.data []).map (fun cs => String.mk cs.reverse)
where
  go : List Char → List Char → List (List Char)
  | [], acc => [acc]
  | c :: rest, acc =>
    if c = ' ' then acc :: go rest [] else go rest (c :: acc)

/-- The middleware `middleware.AuthMiddleware`.  Here `store` maps an API key to the outcome of
`TenantStore.GetTenant`; `authHeader` is `c.GetHeader("Authorization")`
(the empty string when the header is absent, as in gin). -/
def authMiddleware (store : String → Except String (Option Tenant))
    (authHeader : String) : AuthOutcome :=
  if authHeader = "" then
    .abort 401 (.errorMsg "Missing Authorization header")
  else
    match splitSpaces authHeader with
    | [scheme, apiKey] =>
      if scheme ≠ "Bearer" then
        .abort 401 (.errorMsg "Invalid Authorization header format")
      else
        match store apiKey with
        | .error _ => .abort 401 (.errorMsg "Invalid API Key")
        | .ok none => .abort 401 (.errorMsg "Invalid API Key")
        | .ok (some t) => .proceed t
    | _ => .abort 401 (.errorMsg "Invalid Authorization header format")

/-- Composition: `AuthMiddleware` backed by the `DynamoDBTenantStore` read path whose
DynamoDB lookup returns `item` for every key. -/
def authOverDyn (item : Option Tenant) (authHeader : String) : AuthOutcome :=
  authMiddleware (fun _ => dynGetTenant item) authHeader

/-! ## Rate-limit middleware (src/unnamed/part_005, lines 109-162) and
`MockRateLimitStore` (src/internal/store/mock_store.go) -/

/-- State of `store.MockRateLimitStore`: the two counter maps (Go map
reads of a missing key yield 0, modelled by total functions) and the
forced error. -/
structure MockRL where
  rpm : String → Int
  tpm : String → Int
  err : Option String

/-- Method `MockRateLimitStore.IncrementRPM`. -/
def MockRL.incrementRPM (st : MockRL) (tid : String) :
    Except String Int × MockRL :=
  match st.err with
  | some e => (.error e, st)
  | none =>
    let n := st.rpm tid + 1
    (.ok n, { st with rpm := fun k => if k = tid then n else st.rpm k })

/-- Method `MockRateLimitStore.IncrementTPM`. -/
def MockRL.incrementTPM (st : MockRL) (tid : String) (tokens : Int) :
    Except String Int × MockRL :=
  match st.err with
  | some e => (.error e, st)
  | none =>
    let n := st.tpm tid + tokens
    (.ok n, { st with tpm := fun k => if k = tid then n else st.tpm k })

/-- Method `MockRateLimitStore.GetTPM`. -/
def MockRL.getTPM (st : MockRL) (tid : String) : Except String Int :=
  match st.err with
  | some e => .error e
  | none => .ok (st.tpm tid)

/-- Admission outcome of `RateLimitMiddleware`: abort with status, the
optional `Retry-After` header value, and a JSON body, or pass the request
on. -/
inductive RLOutcome where
  | abort (status : Nat) (retryAfter : Option String) (body : RespBody)
  | next
  deriving DecidableEq

/-- The middleware `middleware.RateLimitMiddleware`, for a request whose context carries
`tenant` (the missing-tenant-context 500 branch is a per-request
precondition established by `AuthMiddleware` and is not reachable from
the wired pipeline). Returns the outcome and the updated counter store. -/
def rateLimitMiddleware (st : MockRL) (tenant : Tenant) :
    RLOutcome × MockRL :=
  match st.incrementRPM tenant.tenantID with
  | (.error _, st1) =>
    (.abort 500 none (.errorMsg "Rate limit check failed"), st1)
  | (.ok currentRPM, st1) =>
    if currentRPM > tenant.rpmLimit then
      (.abort 429 (some "60")
        (.errorLimit "Rate limit exceeded (RPM)" tenant.rpmLimit), st1)
    else
      match st1.getTPM tenant.tenantID with
      | .error _ =>
        (.abort 500 none (.errorMsg "Rate limit check failed (TPM)"), st1)
      | .ok currentTPM =>
        if currentTPM > tenant.tpmLimit then
          (.abort 429 (some "60")
            (.errorLimit "Rate limit exceeded (TPM)" tenant.tpmLimit), st1)
        else
          (.next, st1)

/-- Run `n` admissions of the same tenant in sequence through
`RateLimitMiddleware`, threading the counter store (one fixed minute
bucket: the key schema does not change within the scenario). -/
def runRL (tenant : Tenant) : Nat → MockRL → List RLOutcome × MockRL
  | 0, st => ([], st)
  | n + 1, st =>
    let (o, st1) := rateLimitMiddleware st tenant
    let (os, st2) := runRL tenant n st1
    (o :: os, st2)

/-! ## Retry-policy header parsing (handler.go lines 173-188) -/

/-- Digits of a decimal literal; `none` unless the list is non-empty and
all digits. -/
def digitsToNat : List Char → Option Nat
  | [] => none
  | cs => go cs 0
where
  go : List Char → Nat → Option Nat
  | [], acc => some acc
  | c :: cs, acc =>
    if c.isDigit then go cs (acc * 10 + (c.toNat - 48)) else none

/-- Model of `strconv.Atoi`: optional sign followed by digits.  The `int64`
range error of Go is not modelled; every header value relevant to the
claims is small. -/
def atoi (s : String) : Option Int :=
  match s.data with
  | '+' :: rest => (digitsToNat rest).map Int.ofNat
  | '-' :: rest => (digitsToNat rest).map (fun n => -(n : Int))
  | _ => (digitsToNat s.data).map Int.ofNat

/-- Effective `retryMax` (handler.go lines 179-183): default 3; a
non-empty `X-LLM-Retry-Max` header replaces it only when it parses and
lies in 0..10. `hVal` is the raw header ("" when absent). -/
def effectiveRetryMax (hVal : String) : Int :=
  if hVal ≠ "" then
    match atoi hVal with
    | some v => if 0 ≤ v ∧ v ≤ 10 then v else 3
    | none => 3
  else 3

/-- Effective `backoffMs` (handler.go lines 184-188): default 100; a
non-empty `X-LLM-Retry-Backoff-Ms` header replaces it only when it
parses to a non-negative integer. -/
def effectiveBackoffMs (hVal : String) : Int :=
  if hVal ≠ "" then
    match atoi hVal with
    | some v => if 0 ≤ v then v else 100
    | none => 100
  else 100


/-! ## JSON values and a parser for SSE chunk payloads

`streamResponse` calls `json.Unmarshal` on each `data:` payload to pull
out `choices[0].delta.content`.  The parser below implements the JSON
grammar used by `encoding/json` on such payloads.  Number literals are
kept as their source text (the chunk schema reads no numbers);
`\uXXXX` string escapes and the case-insensitive field-name fallback of
`encoding/json` are not modelled (no claim exercises them). -/
inductive Json where
  | null
  | bool (b : Bool)
  | num (lit : String)
  | str (s : String)
  | arr (elems : List Json)
  | obj (fields : List (String × Json))

/-- The character with code 123 (written indirectly for tooling reasons). -/
def lbrace : Char := Char.ofNat 123

/-- The character with code 125. -/
def rbrace : Char := Char.ofNat 125

/-- JSON whitespace as accepted by `encoding/json`. -/
def isJsonWs (c : Char) : Bool :=
  c = ' ' || c = '\t' || c = '\n' || c = '\r'

/-- Drop leading JSON whitespace. -/
def skipWs : List Char → List Char
  | [] => []
  | c :: cs => if isJsonWs c then skipWs cs else c :: cs

/-- One-character string escapes of JSON. -/
def unescape (c : Char) : Option Char :=
  if c = 'n' then some '\n'
  else if c = 't' then some '\t'
  else if c = 'r' then some '\r'
  else if c = 'b' then some (Char.ofNat 8)
  else if c = 'f' then some (Char.ofNat 12)
  else if c = '"' then some '"'
  else if c = '\\' then some '\\'
  else if c = '/' then some '/'
  else none

/-- Parse the body of a string literal (the opening quote already
consumed), returning the string and the rest of the input. -/
def parseStrBody (acc : List Char) : List Char → Option (String × List Char)
  | [] => none
  | c :: cs =>
    if c = '"' then some (String.mk acc.reverse, cs)
    else if c = '\\' then
      match cs with
      | [] => none
      | e :: cs2 =>
        match unescape e with
        | some u => parseStrBody (u :: acc) cs2
        | none => none
    else parseStrBody (c :: acc) cs

/-- Characters that may occur in a JSON number literal. -/
def isNumChar (c : Char) : Bool :=
  c.isDigit || c = '-' || c = '+' || c = '.' || c = 'e' || c = 'E'

/-- Longest prefix of number characters, and the rest. -/
def takeNum : List Char → List Char × List Char
  | [] => ([], [])
  | c :: cs =>
    if isNumChar c then
      let (a, b) := takeNum cs
      (c :: a, b)
    else ([], c :: cs)

/-- Expect the literal character sequence `lit`. -/
def dropLit : List Char → List Char → Option (List Char)
  | [], rest => some rest
  | l :: ls, c :: cs => if c = l then dropLit ls cs else none
  | _ :: _, [] => none

mutual

/-- Parse one JSON value (fuel-indexed recursion; `Json.parse` supplies
enough fuel for any input it is called on). -/
def parseVal : Nat → List Char → Option (Json × List Char)
  | 0, _ => none
  | fuel + 1, cs =>
    match skipWs cs with
    | [] => none
    | c :: cs1 =>
      if c = lbrace then
        match skipWs cs1 with
        | d :: cs2 =>
          if d = rbrace then some (.obj [], cs2)
          else
            match parseFields fuel (d :: cs2) with
            | some (fs, rest) => some (.obj fs, rest)
            | none => none
        | [] => none
      else if c = '[' then
        match skipWs cs1 with
        | d :: cs2 =>
          if d = ']' then some (.arr [], cs2)
          else
            match parseElems fuel (d :: cs2) with
            | some (xs, rest) => some (.arr xs, rest)
            | none => none
        | [] => none
      else if c = '"' then
        match parseStrBody [] cs1 with
        | some (s, rest) => some (.str s, rest)
        | none => none
      else if c = 't' then
        (dropLit ['r', 'u', 'e'] cs1).map (fun rest => (.bool true, rest))
      else if c = 'f' then
        (dropLit ['a', 'l', 's', 'e'] cs1).map (fun rest => (.bool false, rest))
      else if c = 'n' then
        (dropLit ['u', 'l', 'l'] cs1).map (fun rest => (.null, rest))
      else if isNumChar c then
        let (a, b) := takeNum (c :: cs1)
        some (.num (String.mk a), b)
      else none

/-- Parse the elements of a non-empty array (after the opening bracket). -/
def parseElems : Nat → List Char → Option (List Json × List Char)
  | 0, _ => none
  | fuel + 1, cs =>
    match parseVal fuel cs with
    | none => none
    | some (j, rest) =>
      match skipWs rest with
      | c :: rest2 =>
        if c = ',' then
          match parseElems fuel rest2 with
          | some (xs, rest3) => some (j :: xs, rest3)
          | none => none
        else if c = ']' then some ([j], rest2)
        else none
      | [] => none

/-- Parse the fields of a non-empty object (after the opening brace). -/
def parseFields : Nat → List Char → Option (List (String × Json) × List Char)
  | 0, _ => none
  | fuel + 1, cs =>
    match skipWs cs with
    | c :: cs1 =>
      if c = '"' then
        match parseStrBody [] cs1 with
        | some (k, rest) =>
          match skipWs rest with
          | c2 :: rest2 =>
            if c2 = ':' then
              match parseVal fuel rest2 with
              | some (v, rest3) =>
                match skipWs rest3 with
                | c3 :: rest4 =>
                  if c3 = ',' then
                    match parseFields fuel rest4 with
                    | some (fs, rest5) => some ((k, v) :: fs, rest5)
                    | none => none
                  else if c3 = rbrace then some ([(k, v)], rest4)
                  else none
                | [] => none
              | none => none
            else none
          | [] => none
        | none => none
      else none
    | [] => none

end

/-- Parse a complete JSON document: one value followed only by
whitespace, as `json.Unmarshal` requires. -/
def Json.parse (s : String) : Option Json :=
  match parseVal (s.length + 1) s.data with
  | some (j, rest) => if skipWs rest = [] then some j else none
  | none => none

/-- Field lookup in a parsed object; on duplicate keys `encoding/json`
keeps the last value. -/
def jLookup (fields : List (String × Json)) (k : String) : Option Json :=
  (fields.filter (fun f => f.1 = k)).getLast?.map (fun f => f.2)

/-- Unmarshal one choice's `delta` value into its `content` string,
following `encoding/json` struct decoding: a missing or null field keeps
the zero value (""), a wrongly typed one is an error (`none`). -/
def contentOfDelta : Json → Option String
  | .null => some ""
  | .obj fields =>
    match jLookup fields "content" with
    | none => some ""
    | some .null => some ""
    | some (.str s) => some s
    | some _ => none
  | _ => none

/-- Unmarshal one element of `choices` into its `delta.content`. -/
def contentOfChoice : Json → Option String
  | .null => some ""
  | .obj fields =>
    match jLookup fields "delta" with
    | none => some ""
    | some d => contentOfDelta d
  | _ => none

/-- Model of `json.Unmarshal(data, &partialStruct)` for the anonymous struct of
`streamResponse`: on success the list of `choices[i].delta.content`
values, `none` on any parse or type error. -/
def unmarshalChunk (data : String) : Option (List String) :=
  match Json.parse data with
  | none => none
  | some .null => some []
  | some (.obj fields) =>
    match jLookup fields "choices" with
    | none => some []
    | some .null => some []
    | some (.arr xs) => xs.mapM contentOfChoice
    | some _ => none
  | some _ => none

/-- Model of `strings.HasPrefix`, structurally over the characters. -/
def hasPre (s pfx : String) : Bool :=
  go pfx.data s.data
where
  go : List Char → List Char → Bool
  | [], _ => true
  | _ :: _, [] => false
  | p :: ps, c :: cs => if c = p then go ps cs else false

/-- Model of `strings.TrimPrefix`: drop `pfx` when it is a prefix, else return the
string unchanged. -/
def trimPre (s pfx : String) : String :=
  if hasPre s pfx then s.drop pfx.length else s

/-! ## Streaming pump (`streamResponse`, handler.go lines 347-398)

The upstream body is the list of lines produced by `bufio.Scanner`
(a scanner error truncates the list: exactly the lines that were
scanned appear).  Each line carries the wall-clock value at the moment
it is scanned, so that `time.Since(start)` is `clock - start`; clock
values are abstract time units. -/

/-- One scanned line: the clock when it is read, and its text. -/
structure ScannedLine where
  clock : Nat
  text : String
  deriving DecidableEq

/-- The local state of `streamResponse`: the token accumulator, the
`firstByte` flag, the lines written to the client, and the TTFT values
passed to `middleware.RecordTTFT` (one entry per call). -/
structure StreamState where
  outputTokens : Nat
  firstByte : Bool
  forwarded : List String
  ttfts : List Nat
  deriving DecidableEq

/-- The amount added to `outputTokens` by the token-counting tail of one
loop iteration of `streamResponse` (the `data: ` prefix check, the
`[DONE]` skip, the unmarshal with silently ignored errors, and the
non-empty-choices guard). -/
def lineTokensGo (line : String) : Nat :=
  if hasPre line "data: " then
    let data := trimPre line "data: "
    if data = "[DONE]" then 0
    else
      match unmarshalChunk data with
      | some (c :: _) => c.utf8ByteSize / 4
      | _ => 0
  else 0

/-- One iteration of the `scanner.Scan()` loop of `streamResponse`:
record TTFT if this is the first line, forward the line with a trailing
newline, and accumulate its token contribution. -/
def streamStep (start : Nat) (st : StreamState) (l : ScannedLine) :
    StreamState :=
  let st :=
    if st.firstByte then
      { st with ttfts := st.ttfts ++ [l.clock - start], firstByte := false }
    else st
  let st := { st with forwarded := st.forwarded ++ [l.text ++ "\n"] }
  { st with outputTokens := st.outputTokens + lineTokensGo l.text }

/-- The pump `streamResponse`: pump every scanned line, starting from zero tokens
and an unset `firstByte` flag. -/
def streamResponse (start : Nat) (lines : List ScannedLine) : StreamState :=
  lines.foldl (streamStep start) ⟨0, true, [], []⟩

/-- The spec's per-line token contribution, written from the spec
sentence: a line beginning with `data: ` whose payload is not `[DONE]`
and JSON-parses with a non-empty choices array contributes
`len(choices[0].delta.content) / 4`; every other line contributes 0. -/
def specLineTokens (line : String) : Nat :=
  if hasPre line "data: " ∧ trimPre line "data: " ≠ "[DONE]" then
    match unmarshalChunk (trimPre line "data: ") with
    | some (c :: _) => c.utf8ByteSize / 4
    | _ => 0
  else 0

/-- The spec's stream token estimate: the sum of the per-line
contributions. -/
def specOutputTokens (lines : List String) : Nat :=
  (lines.map specLineTokens).sum

/-- The two content chunks of the happy-streaming scenario. -/
def helloChunk : String :=
  "data: \x7b\"choices\":[\x7b\"delta\":\x7b\"content\":\"Hello\"\x7d\x7d]\x7d"

/-- Second chunk: content " World". -/
def worldChunk : String :=
  "data: \x7b\"choices\":[\x7b\"delta\":\x7b\"content\":\" World\"\x7d\x7d]\x7d"


/-! ## Circuit breaker

`NewHandler` (handler.go lines 46-72) configures a `gobreaker`
circuit breaker with `MaxRequests: 5`, `Interval: 60 s`,
`Timeout: 30 s` and the `ReadyToTrip` shown below.  The breaker itself
is the third-party `sony/gobreaker` dependency; its behaviour is
modelled here within one 60 s observation window and before the 30 s
open-state cool-down elapses (no time passes in the model, so the
generation rollover and the half-open probe state, both time-gated,
do not arise):

* `Execute` in the open state returns `ErrOpenState` at once, without
  invoking the wrapped call and without touching the counters;
* in the closed state it invokes the call, counts the request, and —
  since the source sets no `IsSuccessful` — records a failure exactly
  when the call returned a non-nil error.  `http.Client.Do` returns a
  nil error for any received HTTP response, whatever its status code,
  and a non-nil error only on transport failure;
* after a failure in the closed state the breaker trips to open (and
  clears its counters) when `ReadyToTrip` holds of the updated counts.
-/

/-- Go struct `gobreaker.Counts`. -/
structure CBCounts where
  requests : Nat
  totalSuccesses : Nat
  totalFailures : Nat
  consecutiveSuccesses : Nat
  consecutiveFailures : Nat
  deriving DecidableEq

/-- All-zero counts (a fresh breaker, or after a state change). -/
def CBCounts.zero : CBCounts := ⟨0, 0, 0, 0, 0⟩

/-- Method `Counts.onRequest`. -/
def CBCounts.onRequest (c : CBCounts) : CBCounts :=
  { c with requests := c.requests + 1 }

/-- Method `Counts.onSuccess`. -/
def CBCounts.onSuccess (c : CBCounts) : CBCounts :=
  { c with
    totalSuccesses := c.totalSuccesses + 1,
    consecutiveSuccesses := c.consecutiveSuccesses + 1,
    consecutiveFailures := 0 }

/-- Method `Counts.onFailure`. -/
def CBCounts.onFailure (c : CBCounts) : CBCounts :=
  { c with
    totalFailures := c.totalFailures + 1,
    consecutiveFailures := c.consecutiveFailures + 1,
    consecutiveSuccesses := 0 }

/-- The `ReadyToTrip` closure of `NewHandler`: at least 10 requests and a
failure share of at least 0.6.  The Go code computes the share with
float64 division; the comparison is modelled exactly on rationals
(`failures / requests ≥ 3/5` iff `5 * failures ≥ 3 * requests`), which
agrees with the float comparison at every count reachable in the claims
(the share there is 0 or 1). -/
def readyToTrip (c : CBCounts) : Bool :=
  decide (c.requests ≥ 10 ∧ 5 * c.totalFailures ≥ 3 * c.requests)

/-- Breaker state: `closed` or `opened` (`gobreaker.StateOpen`). -/
inductive CBStateKind where
  | closed
  | opened
  deriving DecidableEq

/-- The circuit breaker's persistent state. -/
structure CB where
  state : CBStateKind
  counts : CBCounts
  deriving DecidableEq

/-- A fresh breaker as built by `NewHandler`. -/
def CB.init : CB := ⟨.closed, .zero⟩

/-- Result of one `h.httpClient.Do(proxyReq)`: a transport error or a
received HTTP response with its status code. -/
inductive UpstreamResult where
  | transportError (msg : String)
  | response (status : Nat)
  deriving DecidableEq

/-- The error value of `cb.Execute`: `gobreaker.ErrOpenState` or the
wrapped call's own (transport) error. -/
inductive GoError where
  | openState
  | transport (msg : String)
  deriving DecidableEq

/-- The `Error()` text of a `GoError` (used in the 502 "details" field). -/
def GoError.message : GoError → String
  | .openState => "circuit breaker is open"
  | .transport msg => msg

/-- Model of `cb.Execute` in the closed state, the wrapped call having produced
`call`: count the request, then record success or failure; trip to open
when `ReadyToTrip` holds after a failure. -/
def cbExecuteClosed (cb : CB) (call : UpstreamResult) :
    Except GoError Nat × CB :=
  let counts := cb.counts.onRequest
  match call with
  | .transportError msg =>
    let counts := counts.onFailure
    if readyToTrip counts then
      (.error (.transport msg), ⟨.opened, .zero⟩)
    else
      (.error (.transport msg), { cb with counts })
  | .response s => (.ok s, { cb with counts := counts.onSuccess })

/-! ## Retry / failover loop (handler.go lines 190-258) -/

/-- The loop's mutable locals: the breaker (shared handler state), the
number of upstream invocations actually performed, `urlIndex`,
`lastErr` and `resp`.  `resp` keeps the last received response across
iterations, exactly like the Go variable. -/
structure LoopState where
  cb : CB
  calls : Nat
  urlIndex : Nat
  lastErr : Option GoError
  resp : Option Nat
  deriving DecidableEq

/-- Initial loop state over breaker `cb`. -/
def LoopState.init (cb : CB) : LoopState := ⟨cb, 0, 0, none, none⟩

/-- The `for attempt <= retryMax` loop.  `upstream n` is the result of
the `n`-th upstream invocation this request actually performs; `fuel`
is `retryMax + 1 - attempt`, so the loop starts with `retryMax + 1`.
Backoff sleeps (and the 429 fast-failover skip of the sleep) only spend
time and are not modelled. -/
def retryLoop (upstream : Nat → UpstreamResult) :
    Nat → LoopState → LoopState
  | 0, st => st
  | fuel + 1, st =>
    match st.cb.state with
    | .opened =>
      -- cbErr == gobreaker.ErrOpenState: record it and break.
      { st with lastErr := some .openState }
    | .closed =>
      let (res, cb1) := cbExecuteClosed st.cb (upstream st.calls)
      let st := { st with cb := cb1, calls := st.calls + 1 }
      match res with
      | .error e =>
        -- transport error: lastErr set, not a success; failover.
        retryLoop upstream fuel
          { st with lastErr := some e, urlIndex := st.urlIndex + 1 }
      | .ok s =>
        let st := { st with resp := some s, lastErr := none }
        if s < 500 ∧ s ≠ 429 then st
        else
          retryLoop upstream fuel { st with urlIndex := st.urlIndex + 1 }

/-! ## Deferred bookkeeping (handler.go lines 301-337) -/

/-- The payload carried into the background goroutine: the closure's
arguments `(tid, mid, in, out)`. -/
structure Task where
  tenantID : String
  modelID : String
  inputTokens : Nat
  outputTokens : Nat
  deriving DecidableEq

/-- The usage-log retry loop `for i := 0; i < 3; i++`: `fails n` says
whether `usageStore.LogUsage` fails on attempt `n` (0-based).  Returns
the number of records appended and the sleeps performed (ms).  A failed
attempt logs, sleeps `100·(i+1)` ms and continues; a successful one
appends exactly one record and breaks. -/
def logUsageLoop (fails : Nat → Bool) : Nat → Nat → Nat × List Nat
  | _, 0 => (0, [])
  | i, fuel + 1 =>
    if fails i then
      let (a, s) := logUsageLoop fails (i + 1) fuel
      (a, (100 * (i + 1)) :: s)
    else (1, [])

/-- Observable effects of running one bookkeeping goroutine: the amount
passed to `IncrementTPM` (a single best-effort attempt), the number of
usage records appended, and the backoff sleeps. -/
structure TaskRun where
  tpmAdd : Nat
  usageAppends : Nat
  sleepsMs : List Nat
  deriving DecidableEq

/-- Run the background task of `CreateCompletion`: increment TPM by
`in + out`, then attempt the usage write up to 3 times. -/
def runTask (fails : Nat → Bool) (t : Task) : TaskRun :=
  let (a, s) := logUsageLoop fails 0 3
  { tpmAdd := t.inputTokens + t.outputTokens,
    usageAppends := a,
    sleepsMs := s }

/-! ## The proxy handler `CreateCompletion` (handler.go lines 91-344) -/

/-- Outcome of `ioutil.ReadAll` under the 10 MiB `MaxBytesReader`:
`tooLarge` is the "http: request body too large" error. -/
inductive ReadBodyErr where
  | tooLarge
  | other (msg : String)
  deriving DecidableEq

/-- What the caller receives: a JSON reply written with `c.JSON` (or an
aborted passthrough), a passthrough of the upstream status with the
upstream body pumped behind it, or the nil-response dereference Go
would hit if the loop could exit with neither error nor response
(`loop_exits_with_err_or_resp` shows it cannot). -/
inductive GatewayReply where
  | json (status : Nat) (body : RespBody)
  | passthrough (status : Nat)
  | goPanic
  deriving DecidableEq

/-- Everything observable about one `CreateCompletion` invocation. -/
structure CompletionResult where
  reply : GatewayReply
  upstreamCalls : Nat
  cb : CB
  tasks : List Task
  writtenLines : List String
  ttfts : List Nat
  deriving DecidableEq

/-- Build the result of an early `c.JSON(status, body); return`. -/
def earlyReply (cb : CB) (status : Nat) (body : RespBody) :
    CompletionResult :=
  ⟨.json status body, 0, cb, [], [], []⟩

/-- The handler `CreateCompletion`.  Arguments are the request and environment as
the handler observes them:

* `tenant` — the context tenant set by `AuthMiddleware`;
* `readErr` — outcome of reading the capped body;
* `bodyLen` — `len(bodyBytes)`;
* `parsed` — result of `json.Unmarshal(bodyBytes, &chatReq)`;
* `modelLookup` — outcome of `modelStore.GetModel`;
* `retryMaxHdr`, `backoffHdr` — raw header values ("" when absent);
* `cb` — the handler's breaker state at entry;
* `upstream n` — result of the `n`-th upstream invocation performed;
* `start`, `sseLines` — clock at entry and the scanned lines of the
  forwarded response's body (streaming);
* `rawLen` — byte length of the forwarded response's body (buffered).

The returned `CompletionResult` records the reply, how many upstream
invocations were made, the breaker state at exit, the scheduled
bookkeeping tasks, the stream lines written, and the TTFT records. -/
def createCompletion (tenant : Tenant) (readErr : Option ReadBodyErr)
    (bodyLen : Nat) (parsed : Option ChatRequest)
    (modelLookup : Except String (Option Model))
    (retryMaxHdr backoffHdr : String) (cb : CB)
    (upstream : Nat → UpstreamResult) (start : Nat)
    (sseLines : List ScannedLine) (rawLen : Nat) : CompletionResult :=
  match readErr with
  | some .tooLarge =>
    earlyReply cb 413 (.errorMsg "Request body too large (limit: 10MB)")
  | some (.other _) =>
    earlyReply cb 400 (.errorMsg "Failed to read request body")
  | none =>
  match parsed with
  | none => earlyReply cb 400 (.errorMsg "Invalid JSON body")
  | some chatReq =>
  if chatReq.messages.length > 50 then
    earlyReply cb 400 (.errorMsg "Too many messages in conversation (max: 50)")
  else if !modelAllowed tenant chatReq.model then
    earlyReply cb 403 (.errorMsg "Model not allowed for this tenant")
  else
  match modelLookup with
  | .error _ => earlyReply cb 500 (.errorMsg "Failed to resolve model config")
  | .ok none => earlyReply cb 404 (.errorMsg "Model configuration not found")
  | .ok (some modelConfig) =>
  if modelConfig.baseURLs.length = 0 then
    earlyReply cb 500 (.errorMsg "Misconfigured model: no base URLs")
  else
    let retryMax := (effectiveRetryMax retryMaxHdr).toNat
    let final := retryLoop upstream (retryMax + 1) (.init cb)
    match final.lastErr with
    | some e =>
      ⟨.json 502 (.errorDetails "Upstream provider failed" e.message),
        final.calls, final.cb, [], [], []⟩
    | none =>
      match final.resp with
      | none => ⟨.goPanic, final.calls, final.cb, [], [], []⟩
      | some s =>
        if s ≥ 500 then
          ⟨.json 502 (.errorStatus "Upstream provider error" s),
            final.calls, final.cb, [], [], []⟩
        else
          let inputTokens := bodyLen / 4
          if chatReq.stream then
            let sr := streamResponse start sseLines
            ⟨.passthrough s, final.calls, final.cb,
              [⟨tenant.tenantID, chatReq.model, inputTokens, sr.outputTokens⟩],
              sr.forwarded, sr.ttfts⟩
          else
            ⟨.passthrough s, final.calls, final.cb,
              [⟨tenant.tenantID, chatReq.model, inputTokens, rawLen / 4⟩],
              [], []⟩

/-- Run `n` consecutive `CreateCompletion` requests with identical
per-request inputs, threading the handler's breaker state (the only
handler state the requests share). -/
def runCompletions (tenant : Tenant) (parsed : Option ChatRequest)
    (modelLookup : Except String (Option Model))
    (upstream : Nat → UpstreamResult) : Nat → CB → CB
  | 0, cb => cb
  | n + 1, cb =>
    let r := createCompletion tenant none 0 parsed modelLookup "" "" cb
      upstream 0 [] 0
    runCompletions tenant parsed modelLookup upstream n r.cb

/-! ### Concrete fixtures used by the scenario theorems -/

/-- A permissive tenant (allowed-models wildcard), as in the tests. -/
def tStream : Tenant := ⟨"sk-1", "t-stream", "T", 100, 100000, ["*"], true⟩

/-- A parsed request for model "gpt-4", no messages, not streaming. -/
def gpt4Req : ChatRequest := ⟨"gpt-4", [], false⟩

/-- A catalog entry for "gpt-4" with a single upstream URL. -/
def gpt4Model : Model := ⟨"gpt-4", "openai", ["http://a"], "OPENAI_API_KEY"⟩

/-- An upstream that answers HTTP 500 to every invocation. -/
def always500 : Nat → UpstreamResult := fun _ => .response 500

deriving instance DecidableEq for Except

/-- A stored tenant item whose numeric limits and allowed-models list
are unset (the DynamoDB zero values), with the active flag set. -/
def emptyFieldsTenant : Tenant := ⟨"k0", "t0", "n0", 0, 0, [], true⟩

/-- The 429 reply of the RPM branch of `RateLimitMiddleware`. -/
def rpm429 (limit : Int) : RLOutcome :=
  .abort 429 (some "60") (.errorLimit "Rate limit exceeded (RPM)" limit)

/-! # Theorems -/


/-! ## C2 — read-time tenant defaults -/


/-- C2 counterexample: reading `emptyFieldsTenant` through the store
yields a tenant whose allowed-models list is still empty — not the
claimed wildcard — and a request from that tenant for "gpt-4" is
rejected with 403 without contacting any upstream. -/
theorem c2_empty_allowed_rejected :
    dynGetTenant (some emptyFieldsTenant) =
      .ok (some ⟨"k0", "t0", "n0", 100, 100000, [], true⟩) ∧
    (createCompletion ⟨"k0", "t0", "n0", 100, 100000, [], true⟩ none 0
        (some gpt4Req) (.ok (some gpt4Model)) "" "" CB.init always500 0 [] 0) =
      earlyReply CB.init 403 (.errorMsg "Model not allowed for this tenant") := by
  decide

/-- C2 (amended): the tenant store's read path defaults only the RPM and
TPM limits (to 100 and 100000 when unset); the allowed-models list is
handed to the pipeline unchanged, and a tenant whose stored list is
empty is rejected for every model. -/
theorem c2_read_time_defaults (t : Tenant) (h : t.isActive = true) :
    dynGetTenant (some t) = .ok (some (applyTenantDefaults t)) ∧
    (applyTenantDefaults t).rpmLimit =
      (if t.rpmLimit = 0 then 100 else t.rpmLimit) ∧
    (applyTenantDefaults t).tpmLimit =
      (if t.tpmLimit = 0 then 100000 else t.tpmLimit) ∧
    (applyTenantDefaults t).allowedModels = t.allowedModels ∧
    (t.allowedModels = [] →
      ∀ m, modelAllowed (applyTenantDefaults t) m = false) := by
  refine ⟨?_, rfl, rfl, rfl, ?_⟩
  · simp [dynGetTenant, h]
  · intro hempty m
    simp [modelAllowed, applyTenantDefaults, hempty]

/-- Witness for `c2_read_time_defaults` at a concrete stored tenant. -/
theorem c2_read_time_defaults_witness :
    dynGetTenant (some emptyFieldsTenant) =
      .ok (some (applyTenantDefaults emptyFieldsTenant)) ∧
    (applyTenantDefaults emptyFieldsTenant).allowedModels = [] := by
  have h := c2_read_time_defaults emptyFieldsTenant (by decide)
  exact ⟨h.1, h.2.2.2.1⟩

/-! ## C3 — retry-policy header handling -/

/-- C3 counterexample: the header value 15 does not yield a retry
maximum of 10 (the claimed clipping); the default 3 is used instead. -/
theorem c3_retry_max_15_not_clipped :
    effectiveRetryMax "15" = 3 ∧ ¬ effectiveRetryMax "15" = 10 := by
  decide

/-- Parsing with `strconv.Atoi` of the empty header value fails. -/
theorem atoi_empty : atoi "" = none := by decide

/-- C3 (amended): a header value that parses to an integer in `[0, 10]`
is used as the retry maximum; any other value — larger than 10,
negative, or unparsable — leaves the default 3 (the value is ignored,
not clipped).  The backoff header is used exactly when it parses to a
non-negative integer, with default 100 otherwise. -/
theorem c3_header_ranges (s : String) (v : Int) :
    (atoi s = some v → 0 ≤ v → v ≤ 10 → effectiveRetryMax s = v) ∧
    (atoi s = some v → 10 < v → effectiveRetryMax s = 3) ∧
    (atoi s = some v → v < 0 → effectiveRetryMax s = 3) ∧
    (atoi s = none → effectiveRetryMax s = 3) ∧
    (atoi s = some v → 0 ≤ v → effectiveBackoffMs s = v) ∧
    (atoi s = some v → v < 0 → effectiveBackoffMs s = 100) := by
  have hne : atoi s = some v → s ≠ "" := by
    intro h he
    rw [he, atoi_empty] at h
    exact Option.noConfusion h
  refine ⟨?_, ?_, ?_, ?_, ?_, ?_⟩
  · intro h h0 h10
    simp [effectiveRetryMax, hne h, h, h0, h10]
  · intro h h10
    simp only [effectiveRetryMax, if_pos (by simpa using hne h), h]
    rw [if_neg (by omega)]
  · intro h h0
    simp only [effectiveRetryMax, if_pos (by simpa using hne h), h]
    rw [if_neg (by omega)]
  · intro h
    by_cases he : s = ""
    · simp [effectiveRetryMax, he]
    · simp [effectiveRetryMax, he, h]
  · intro h h0
    simp [effectiveBackoffMs, hne h, h, h0]
  · intro h h0
    simp only [effectiveBackoffMs, if_pos (by simpa using hne h), h]
    rw [if_neg (by omega)]

/-- Witness for `c3_header_ranges` at concrete header values. -/
theorem c3_header_ranges_witness :
    effectiveRetryMax "7" = 7 ∧ effectiveRetryMax "15" = 3 ∧
    effectiveBackoffMs "250" = 250 := by
  refine ⟨?_, ?_, ?_⟩
  · exact (c3_header_ranges "7" 7).1 (by decide) (by decide) (by decide)
  · exact (c3_header_ranges "15" 15).2.1 (by decide) (by decide)
  · exact (c3_header_ranges "250" 250).2.2.2.2.1 (by decide) (by decide)

/-! ## C5 — RPM admission protocol -/


/-- Functional description of one `RateLimitMiddleware` pass when the
counter store is not erroring: increment-then-check RPM, then check TPM;
the store leaves with the RPM counter incremented in every outcome. -/
theorem rlm_spec (st : MockRL) (t : Tenant) (herr : st.err = none) :
    (rateLimitMiddleware st t).1 =
      (if st.rpm t.tenantID + 1 > t.rpmLimit then rpm429 t.rpmLimit
       else if st.tpm t.tenantID > t.tpmLimit then
        .abort 429 (some "60") (.errorLimit "Rate limit exceeded (TPM)" t.tpmLimit)
       else .next) ∧
    (rateLimitMiddleware st t).2.rpm t.tenantID = st.rpm t.tenantID + 1 ∧
    (rateLimitMiddleware st t).2.tpm = st.tpm ∧
    (rateLimitMiddleware st t).2.err = none := by
  simp only [rateLimitMiddleware, MockRL.incrementRPM, MockRL.getTPM, herr,
    rpm429]
  split
  · simp_all
  · split <;> simp_all

/-- Sequential admissions that all stay within the RPM limit: every
outcome is `next`, and the RPM counter advances by one per request
while the TPM map and error flag are untouched. -/
theorem runRL_all_next (t : Tenant) :
    ∀ (n : Nat) (st : MockRL), st.err = none →
      st.tpm t.tenantID ≤ t.tpmLimit →
      st.rpm t.tenantID + n ≤ t.rpmLimit →
      (runRL t n st).1 = List.replicate n .next ∧
      (runRL t n st).2.rpm t.tenantID = st.rpm t.tenantID + n ∧
      (runRL t n st).2.tpm = st.tpm ∧
      (runRL t n st).2.err = none
  | 0, st, herr, _, _ => by simp [runRL, herr]
  | n + 1, st, herr, htpm, hlim => by
    obtain ⟨ho, hrpm, htp, herr2⟩ := rlm_spec st t herr
    have hnot : ¬ st.rpm t.tenantID + 1 > t.rpmLimit := by omega
    have hnot2 : ¬ st.tpm t.tenantID > t.tpmLimit := by omega
    have ho2 : (rateLimitMiddleware st t).1 = .next := by
      rw [ho, if_neg hnot, if_neg hnot2]
    have ih := runRL_all_next t n (rateLimitMiddleware st t).2
      herr2 (by rw [htp]; exact htpm) (by rw [hrpm]; omega)
    refine ⟨?_, ?_, ?_, ?_⟩
    · simp [runRL, ho2, ih.1, List.replicate_succ]
    · simp only [runRL]
      rw [ih.2.1, hrpm]; omega
    · simp only [runRL]
      rw [ih.2.2.1, htp]
    · simp only [runRL]
      exact ih.2.2.2

/-- Splitting a run of admissions. -/
theorem runRL_split (t : Tenant) :
    ∀ (m n : Nat) (st : MockRL),
      (runRL t (m + n) st).1 =
        (runRL t m st).1 ++ (runRL t n (runRL t m st).2).1
  | 0, n, st => by simp [runRL]
  | m + 1, n, st => by
    have ih := runRL_split t m n (rateLimitMiddleware st t).2
    simp only [runRL]
    rw [show m + 1 + n = (m + n) + 1 from by omega]
    simp only [runRL, List.cons_append]
    rw [ih]

/-- C5: admission counts before checking.  With a non-erroring store:
the outcome is the RPM 429 reply (Retry-After 60, body with the
tenant's limit) iff the post-increment count strictly exceeds the
limit; the request is counted even when rejected; and starting from an
empty minute bucket, the first `rpm_limit` requests are admitted and
the `rpm_limit+1`-th receives the 429. -/
theorem c5_rpm_admission (st : MockRL) (t : Tenant) (l : Nat)
    (herr : st.err = none) (hzero : st.rpm t.tenantID = 0)
    (htpm : st.tpm t.tenantID ≤ t.tpmLimit)
    (hlim : t.rpmLimit = (l : Int)) :
    ((rateLimitMiddleware st t).1 = rpm429 t.rpmLimit ↔
      st.rpm t.tenantID + 1 > t.rpmLimit) ∧
    (rateLimitMiddleware st t).2.rpm t.tenantID = st.rpm t.tenantID + 1 ∧
    (runRL t (l + 1) st).1 =
      List.replicate l .next ++ [rpm429 t.rpmLimit] := by
  obtain ⟨ho, hrpm, htp, herr2⟩ := rlm_spec st t herr
  have hmsg : ("Rate limit exceeded (RPM)" : String) ≠
      "Rate limit exceeded (TPM)" := by decide
  refine ⟨?_, hrpm, ?_⟩
  · constructor
    · intro h
      by_contra hnot
      rw [ho, if_neg hnot] at h
      by_cases h2 : st.tpm t.tenantID > t.tpmLimit
      · rw [if_pos h2] at h
        exact hmsg (by injection (RLOutcome.abort.inj h).2.2 with h3 _; exact h3.symm)
      · rw [if_neg h2] at h
        exact RLOutcome.noConfusion h
    · intro h
      rw [ho, if_pos h]
  · have hall := runRL_all_next t l st herr htpm (by omega)
    rw [runRL_split t l 1 st, hall.1]
    congr 1
    have h1 : (runRL t l st).2.rpm t.tenantID + 1 > t.rpmLimit := by
      rw [hall.2.1, hzero]; omega
    obtain ⟨ho2, _, _, _⟩ := rlm_spec (runRL t l st).2 t hall.2.2.2
    simp only [runRL]
    rw [ho2, if_pos h1]

/-- Witness for `c5_rpm_admission`: a tenant with RPM limit 2 against an
empty bucket — two admissions, then a 429. -/
theorem c5_rpm_admission_witness :
    (runRL ⟨"k", "t1", "n", 2, 100, [], true⟩ 3
        ⟨fun _ => 0, fun _ => 0, none⟩).1 =
      List.replicate 2 .next ++ [rpm429 2] := by
  exact (c5_rpm_admission ⟨fun _ => 0, fun _ => 0, none⟩
    ⟨"k", "t1", "n", 2, 100, [], true⟩ 2 rfl rfl (by decide) (by decide)).2.2

/-! ## C8 — authentication failures -/

/-- C8: every authentication failure — missing header, malformed scheme
(not exactly two space-separated tokens with the first "Bearer"),
store error, or unknown tenant — aborts with 401 and a one-field JSON
error body; every abort of the middleware is such a 401; and against
the DynamoDB read path an inactive tenant's key produces a response
identical to an unknown key's, for every request. -/
theorem c8_auth_failures (store : String → Except String (Option Tenant))
    (hdr : String) :
    (authMiddleware store "" =
      .abort 401 (.errorMsg "Missing Authorization header")) ∧
    (hdr ≠ "" → (∀ k, splitSpaces hdr ≠ ["Bearer", k]) →
      authMiddleware store hdr =
        .abort 401 (.errorMsg "Invalid Authorization header format")) ∧
    (∀ k e, hdr ≠ "" → splitSpaces hdr = ["Bearer", k] → store k = .error e →
      authMiddleware store hdr = .abort 401 (.errorMsg "Invalid API Key")) ∧
    (∀ k, hdr ≠ "" → splitSpaces hdr = ["Bearer", k] → store k = .ok none →
      authMiddleware store hdr = .abort 401 (.errorMsg "Invalid API Key")) ∧
    (∀ s b, authMiddleware store hdr = .abort s b →
      s = 401 ∧ ∃ m, b = .errorMsg m) ∧
    (∀ t : Tenant, t.isActive = false →
      authOverDyn none hdr = authOverDyn (some t) hdr) := by
  refine ⟨?_, ?_, ?_, ?_, ?_, ?_⟩
  · simp [authMiddleware]
  · intro hne hk
    unfold authMiddleware
    rw [if_neg hne]
    split
    · rename_i scheme apiKey hm
      have hs : scheme ≠ "Bearer" := fun h => hk apiKey (by rw [hm, h])
      simp [hs]
    · rfl
  · intro k e hne hm hst
    unfold authMiddleware
    rw [if_neg hne, hm]
    simp [hst]
  · intro k hne hm hst
    unfold authMiddleware
    rw [if_neg hne, hm]
    simp [hst]
  · intro s b
    unfold authMiddleware
    split
    · intro h; cases h; exact ⟨rfl, _, rfl⟩
    · split
      · split
        · intro h; cases h; exact ⟨rfl, _, rfl⟩
        · split
          · intro h; cases h; exact ⟨rfl, _, rfl⟩
          · intro h; cases h; exact ⟨rfl, _, rfl⟩
          · intro h; exact nomatch h
      · intro h; cases h; exact ⟨rfl, _, rfl⟩
  · intro t ht
    unfold authOverDyn authMiddleware
    simp only [dynGetTenant, ht, Bool.not_false]
    split
    · rfl
    · split <;> rfl

/-- Witness for `c8_auth_failures`: a concrete inactive tenant is
answered exactly like an unknown key. -/
theorem c8_auth_failures_witness :
    authOverDyn none "Bearer ik" =
      authOverDyn (some ⟨"ik", "t2", "n", 5, 5, ["*"], false⟩) "Bearer ik" := by
  exact (c8_auth_failures (fun _ => .ok none) "Bearer ik").2.2.2.2.2
    ⟨"ik", "t2", "n", 5, 5, ["*"], false⟩ rfl

/-! ## C6, C7 — streaming pump -/

/-- The code's per-line token contribution coincides with the spec's. -/
theorem lineTokensGo_eq_spec (line : String) :
    lineTokensGo line = specLineTokens line := by
  cases h1 : hasPre line "data: " with
  | false => simp [lineTokensGo, specLineTokens, h1]
  | true =>
    by_cases h2 : trimPre line "data: " = "[DONE]"
    · simp [lineTokensGo, specLineTokens, h1, h2]
    · cases h3 : unmarshalChunk (trimPre line "data: ") with
      | none => simp [lineTokensGo, specLineTokens, h1, h2, h3]
      | some cs =>
        cases cs <;> simp [lineTokensGo, specLineTokens, h1, h2, h3]

/-- One pump iteration adds exactly the spec's per-line contribution to
the token accumulator. -/
theorem streamStep_tokens (start : Nat) (st : StreamState) (l : ScannedLine) :
    (streamStep start st l).outputTokens =
      st.outputTokens + specLineTokens l.text := by
  rw [← lineTokensGo_eq_spec]
  cases hfb : st.firstByte <;> simp [streamStep, hfb]

/-- The pump's accumulator over any line list equals the starting value
plus the spec's sum. -/
theorem streamFold_tokens (start : Nat) :
    ∀ (lines : List ScannedLine) (st : StreamState),
      (List.foldl (streamStep start) st lines).outputTokens =
        st.outputTokens + specOutputTokens (lines.map ScannedLine.text)
  | [], st => by simp [specOutputTokens]
  | l :: rest, st => by
    rw [List.foldl_cons, streamFold_tokens start rest (streamStep start st l)]
    rw [streamStep_tokens]
    simp [specOutputTokens]
    omega

/-- After any pump iteration the `firstByte` flag is down. -/
theorem streamStep_firstByte (start : Nat) (st : StreamState)
    (l : ScannedLine) : (streamStep start st l).firstByte = false := by
  cases hfb : st.firstByte <;> simp [streamStep, hfb]

/-- One pump iteration appends exactly the forwarded line. -/
theorem streamStep_forwarded (start : Nat) (st : StreamState)
    (l : ScannedLine) :
    (streamStep start st l).forwarded = st.forwarded ++ [l.text ++ "\n"] := by
  cases hfb : st.firstByte <;> simp [streamStep, hfb]

/-- One pump iteration records TTFT exactly when `firstByte` is up. -/
theorem streamStep_ttfts (start : Nat) (st : StreamState) (l : ScannedLine) :
    (streamStep start st l).ttfts =
      if st.firstByte then st.ttfts ++ [l.clock - start] else st.ttfts := by
  cases hfb : st.firstByte <;> simp [streamStep, hfb]

/-- With the flag down, the rest of the pump never records TTFT. -/
theorem streamFold_ttft_stable (start : Nat) :
    ∀ (lines : List ScannedLine) (st : StreamState), st.firstByte = false →
      (List.foldl (streamStep start) st lines).ttfts = st.ttfts
  | [], _, _ => rfl
  | l :: rest, st, h => by
    rw [List.foldl_cons,
      streamFold_ttft_stable start rest _ (streamStep_firstByte start st l)]
    rw [streamStep_ttfts, h, if_neg (by simp)]

/-- The pump forwards every scanned line, each with a trailing newline. -/
theorem streamFold_forwarded (start : Nat) :
    ∀ (lines : List ScannedLine) (st : StreamState),
      (List.foldl (streamStep start) st lines).forwarded =
        st.forwarded ++ lines.map (fun l => l.text ++ "\n")
  | [], st => by simp
  | l :: rest, st => by
    rw [List.foldl_cons, streamFold_forwarded start rest _,
      streamStep_forwarded]
    simp

/-- C6: for every streamed response the accumulated `output_tokens` is
the spec's sum over the forwarded lines — each line beginning with
`data: ` whose payload is not `[DONE]` and parses with a non-empty
choices array contributes `len(choices[0].delta.content) / 4`, all
other lines (parse failures included) contribute 0 — and on the
two-chunk "Hello" / " World" stream the value is 2. -/
theorem c6_stream_token_estimate :
    (∀ (start : Nat) (lines : List ScannedLine),
      (streamResponse start lines).outputTokens =
        specOutputTokens (lines.map ScannedLine.text)) ∧
    specOutputTokens [helloChunk, worldChunk, "data: [DONE]"] = 2 ∧
    (streamResponse 0
        [⟨1, helloChunk⟩, ⟨2, worldChunk⟩, ⟨3, "data: [DONE]"⟩]).outputTokens =
      2 := by
  refine ⟨?_, by decide, by decide⟩
  intro start lines
  unfold streamResponse
  rw [streamFold_tokens]
  simp

/-- C7: the pump forwards every scanned line, and records TTFT exactly
once — at the first forwarded line, with the clock elapsed since
request start — and never when no line is forwarded. -/
theorem c7_ttft_exactly_once :
    ∀ (start : Nat) (lines : List ScannedLine),
      (streamResponse start lines).ttfts =
        (match lines with
          | [] => []
          | l :: _ => [l.clock - start]) ∧
      (streamResponse start lines).forwarded =
        lines.map (fun l => l.text ++ "\n") := by
  intro start lines
  cases lines with
  | nil => exact ⟨rfl, rfl⟩
  | cons l rest =>
    constructor
    · show (List.foldl (streamStep start) _ (l :: rest)).ttfts = _
      rw [List.foldl_cons,
        streamFold_ttft_stable start rest _ (streamStep_firstByte start _ l),
        streamStep_ttfts]
      rfl
    · show (List.foldl (streamStep start) _ (l :: rest)).forwarded = _
      rw [List.foldl_cons, streamFold_forwarded start rest _,
        streamStep_forwarded]
      rfl

/-! ## C1 — circuit breaker on upstream 500s -/

/-- C1: the code contradicts the claim.  Ten consecutive requests whose
upstream answers HTTP 500 every time (default retry policy, so 40
upstream invocations) leave the breaker closed with zero recorded
failures — a 500-status response reaches `gobreaker` as a nil error
from `http.Client.Do` and is counted as a success — and the eleventh
request still contacts the upstream four times, receiving its 502
through the "Upstream provider error" path rather than observing
`BreakerOpen`. -/
theorem c1_breaker_not_opened_by_500s :
    (runCompletions tStream (some gpt4Req) (.ok (some gpt4Model)) always500
        10 CB.init).state = .closed ∧
    (runCompletions tStream (some gpt4Req) (.ok (some gpt4Model)) always500
        10 CB.init).counts.totalFailures = 0 ∧
    (runCompletions tStream (some gpt4Req) (.ok (some gpt4Model)) always500
        10 CB.init).counts.requests = 40 ∧
    (createCompletion tStream none 0 (some gpt4Req) (.ok (some gpt4Model))
        "" "" (runCompletions tStream (some gpt4Req) (.ok (some gpt4Model))
          always500 10 CB.init) always500 0 [] 0).upstreamCalls = 4 ∧
    (createCompletion tStream none 0 (some gpt4Req) (.ok (some gpt4Model))
        "" "" (runCompletions tStream (some gpt4Req) (.ok (some gpt4Model))
          always500 10 CB.init) always500 0 [] 0).reply =
      .json 502 (.errorStatus "Upstream provider error" 500) := by
  decide

/-! ## C4 — loop-exit responses -/

/-- The retry loop, run for at least one iteration, always leaves either
an error or a received response (so the nil-dereference arm of the
handler is unreachable). -/
theorem loop_exits_with_err_or_resp (u : Nat → UpstreamResult) :
    ∀ (fuel : Nat) (st : LoopState),
      (retryLoop u (fuel + 1) st).lastErr ≠ none ∨
      (retryLoop u (fuel + 1) st).resp ≠ none
  | 0, st => by
    simp only [retryLoop]
    cases hcb : st.cb.state
    · rcases hexec : cbExecuteClosed st.cb (u st.calls) with ⟨res, cb1⟩
      cases res with
      | error e => simp [hexec]
      | ok s =>
        by_cases hs : s < 500 ∧ s ≠ 429 <;> simp [hexec, hs, retryLoop]
    · simp
  | fuel + 1, st => by
    have ih : ∀ st2 : LoopState,
        (retryLoop u (fuel + 1) st2).lastErr ≠ none ∨
        (retryLoop u (fuel + 1) st2).resp ≠ none :=
      fun st2 => loop_exits_with_err_or_resp u fuel st2
    generalize hk : fuel + 1 = k at ih ⊢
    simp only [retryLoop]
    cases hcb : st.cb.state
    · rcases hexec : cbExecuteClosed st.cb (u st.calls) with ⟨res, cb1⟩
      cases res with
      | error e => simpa [hexec] using ih _
      | ok s =>
        by_cases hs : s < 500 ∧ s ≠ 429
        · simp [hexec, hs]
        · simpa [hexec, hs] using ih _
    · simp

/-- C4 counterexample: with retry maximum 0 (header "0") and an upstream
answering 429, the loop exhausts its attempts without a success-class
response, yet the caller receives the forwarded 429 — not the claimed
502 — and the request is even accounted (one bookkeeping task). -/
theorem c4_final_429_forwarded :
    (createCompletion tStream none 0 (some gpt4Req) (.ok (some gpt4Model))
        "0" "" CB.init (fun _ => .response 429) 0 [] 0).reply =
      .passthrough 429 ∧
    (createCompletion tStream none 0 (some gpt4Req) (.ok (some gpt4Model))
        "0" "" CB.init (fun _ => .response 429) 0 [] 0).tasks.length = 1 := by
  decide

/-- C4 (amended): when the body and model checks pass, the reply is one
of exactly three shapes — 502 "Upstream provider failed" when the loop
ends holding an error (transport failure or breaker open), 502
"Upstream provider error" when it ends on a 5xx response, or a
passthrough of a final status strictly below 500 (which, when the
attempts were exhausted, can be a 429 forwarded to the caller). -/
theorem c4_loop_exit_classification (tenant : Tenant) (bodyLen : Nat)
    (req : ChatRequest) (modelLookup : Except String (Option Model))
    (mc : Model) (retryMaxHdr backoffHdr : String) (cb : CB)
    (upstream : Nat → UpstreamResult) (start : Nat)
    (sseLines : List ScannedLine) (rawLen : Nat)
    (hmsg : req.messages.length ≤ 50)
    (hallow : modelAllowed tenant req.model = true)
    (hmodel : modelLookup = .ok (some mc))
    (hurls : mc.baseURLs.length ≠ 0) :
    (∃ e : GoError,
      (createCompletion tenant none bodyLen (some req) modelLookup
          retryMaxHdr backoffHdr cb upstream start sseLines rawLen).reply =
        .json 502 (.errorDetails "Upstream provider failed" e.message)) ∨
    (∃ s, 500 ≤ s ∧
      (createCompletion tenant none bodyLen (some req) modelLookup
          retryMaxHdr backoffHdr cb upstream start sseLines rawLen).reply =
        .json 502 (.errorStatus "Upstream provider error" s)) ∨
    (∃ s, s < 500 ∧
      (createCompletion tenant none bodyLen (some req) modelLookup
          retryMaxHdr backoffHdr cb upstream start sseLines rawLen).reply =
        .passthrough s) := by
  have hexit := loop_exits_with_err_or_resp upstream
    (effectiveRetryMax retryMaxHdr).toNat (.init cb)
  unfold createCompletion
  rw [hmodel]
  dsimp only
  rw [if_neg (by omega)]
  rw [if_neg (by simp [hallow])]
  rw [if_neg hurls]
  cases hle : (retryLoop upstream ((effectiveRetryMax retryMaxHdr).toNat + 1)
      (LoopState.init cb)).lastErr with
  | some e => exact Or.inl ⟨e, by simp [hle]⟩
  | none =>
    cases hresp : (retryLoop upstream
        ((effectiveRetryMax retryMaxHdr).toNat + 1)
        (LoopState.init cb)).resp with
    | none => simp [hle, hresp] at hexit
    | some s =>
      by_cases hs : s ≥ 500
      · exact Or.inr (Or.inl ⟨s, hs, by simp [hle, hresp, hs]⟩)
      · refine Or.inr (Or.inr ⟨s, by omega, ?_⟩)
        by_cases hstream : req.stream <;> simp [hle, hresp, hs, hstream]

/-- Witness for `c4_loop_exit_classification` at a concrete request
whose upstream always answers 500. -/
theorem c4_loop_exit_classification_witness :
    (∃ e : GoError,
      (createCompletion tStream none 0 (some gpt4Req) (.ok (some gpt4Model))
          "" "" CB.init always500 0 [] 0).reply =
        .json 502 (.errorDetails "Upstream provider failed" e.message)) ∨
    (∃ s, 500 ≤ s ∧
      (createCompletion tStream none 0 (some gpt4Req) (.ok (some gpt4Model))
          "" "" CB.init always500 0 [] 0).reply =
        .json 502 (.errorStatus "Upstream provider error" s)) ∨
    (∃ s, s < 500 ∧
      (createCompletion tStream none 0 (some gpt4Req) (.ok (some gpt4Model))
          "" "" CB.init always500 0 [] 0).reply = .passthrough s) := by
  exact c4_loop_exit_classification tStream 0 gpt4Req (.ok (some gpt4Model))
    gpt4Model "" "" CB.init always500 0 [] 0 (by decide) (by decide) rfl
    (by decide)

/-! ## C9, C10 — deferred bookkeeping -/

/-- Whenever `CreateCompletion` forwards an upstream response, exactly
one bookkeeping task is scheduled, carrying the tenant, the requested
model, the input estimate `len(body)/4`, and the output estimate of the
branch taken (stream pump sum, or `len(raw body)/4`). -/
theorem passthrough_tasks (tenant : Tenant) (readErr : Option ReadBodyErr)
    (bodyLen : Nat) (parsed : Option ChatRequest)
    (modelLookup : Except String (Option Model)) (rh bh : String) (cb : CB)
    (upstream : Nat → UpstreamResult) (start : Nat)
    (sseLines : List ScannedLine) (rawLen : Nat) (s : Nat)
    (h : (createCompletion tenant readErr bodyLen parsed modelLookup rh bh
        cb upstream start sseLines rawLen).reply = .passthrough s) :
    ∃ req : ChatRequest, parsed = some req ∧
      (createCompletion tenant readErr bodyLen parsed modelLookup rh bh cb
          upstream start sseLines rawLen).tasks =
        [⟨tenant.tenantID, req.model, bodyLen / 4,
          if req.stream then (streamResponse start sseLines).outputTokens
          else rawLen / 4⟩] := by
  revert h
  unfold createCompletion
  dsimp only
  split
  · intro h; simp [earlyReply] at h
  · intro h; simp [earlyReply] at h
  · split
    · intro h; simp [earlyReply] at h
    · rename_i req
      split
      · intro h; simp [earlyReply] at h
      · split
        · intro h; simp [earlyReply] at h
        · split
          · intro h; simp [earlyReply] at h
          · intro h; simp [earlyReply] at h
          · split
            · intro h; simp [earlyReply] at h
            · split
              · intro h; simp at h
              · split
                · intro h; simp at h
                · split
                  · intro h; simp at h
                  · split
                    · rename_i hstream
                      intro h
                      exact ⟨req, rfl, by simp [hstream]⟩
                    · rename_i hstream
                      intro h
                      refine ⟨req, rfl, by simp [hstream]⟩

/-- C10: every forwarded final response — any status below 500 other
than 429, a 4xx exactly like a 2xx, and whatever prefix of the body the
pump managed to read — schedules exactly one deferred task, whose TPM
increment is the input+output estimate and whose usage write appends
one record when the sink does not fail. -/
theorem c10_forwarded_bookkeeping (tenant : Tenant)
    (readErr : Option ReadBodyErr) (bodyLen : Nat)
    (parsed : Option ChatRequest)
    (modelLookup : Except String (Option Model)) (rh bh : String) (cb : CB)
    (upstream : Nat → UpstreamResult) (start : Nat)
    (sseLines : List ScannedLine) (rawLen : Nat) (s : Nat)
    (h : (createCompletion tenant readErr bodyLen parsed modelLookup rh bh
        cb upstream start sseLines rawLen).reply = .passthrough s)
    (h5 : s < 500) (h429 : s ≠ 429) :
    ∃ tk : Task,
      (createCompletion tenant readErr bodyLen parsed modelLookup rh bh cb
          upstream start sseLines rawLen).tasks = [tk] ∧
      tk.tenantID = tenant.tenantID ∧
      tk.inputTokens = bodyLen / 4 ∧
      (∀ fails, (runTask fails tk).tpmAdd =
        tk.inputTokens + tk.outputTokens) ∧
      (runTask (fun _ => false) tk).usageAppends = 1 := by
  obtain ⟨req, hp, ht⟩ := passthrough_tasks tenant readErr bodyLen parsed
    modelLookup rh bh cb upstream start sseLines rawLen s h
  exact ⟨_, ht, rfl, rfl, fun fails => rfl, rfl⟩

/-- Witness for `c10_forwarded_bookkeeping`: a concrete streamed 200. -/
theorem c10_forwarded_bookkeeping_witness :
    ∃ tk : Task,
      (createCompletion tStream none 43 (some ⟨"gpt-4", [], true⟩)
          (.ok (some gpt4Model)) "" "" CB.init (fun _ => .response 200) 0
          [⟨1, helloChunk⟩, ⟨2, worldChunk⟩, ⟨3, "data: [DONE]"⟩] 0).tasks =
        [tk] ∧
      tk.tenantID = tStream.tenantID ∧
      tk.inputTokens = 43 / 4 ∧
      (∀ fails, (runTask fails tk).tpmAdd =
        tk.inputTokens + tk.outputTokens) ∧
      (runTask (fun _ => false) tk).usageAppends = 1 := by
  exact c10_forwarded_bookkeeping tStream none 43 (some ⟨"gpt-4", [], true⟩)
    (.ok (some gpt4Model)) "" "" CB.init (fun _ => .response 200) 0
    [⟨1, helloChunk⟩, ⟨2, worldChunk⟩, ⟨3, "data: [DONE]"⟩] 0 200
    (by decide) (by decide) (by decide)

/-- C9: a forwarded 2xx schedules exactly one usage task, whose sink
write appends exactly one record when the sink does not fail (the write
is attempted up to 3 times with 100·attempt ms sleeps after failures);
and a request for a model outside the tenant's allowed list is answered
403 with no upstream contact and no task. -/
theorem c9_usage_record_and_forbidden (tenant : Tenant)
    (readErr : Option ReadBodyErr) (bodyLen : Nat)
    (parsed : Option ChatRequest)
    (modelLookup : Except String (Option Model)) (rh bh : String) (cb : CB)
    (upstream : Nat → UpstreamResult) (start : Nat)
    (sseLines : List ScannedLine) (rawLen : Nat) (s : Nat) :
    ((createCompletion tenant readErr bodyLen parsed modelLookup rh bh cb
        upstream start sseLines rawLen).reply = .passthrough s →
      200 ≤ s → s < 300 →
      ∃ tk : Task,
        (createCompletion tenant readErr bodyLen parsed modelLookup rh bh
            cb upstream start sseLines rawLen).tasks = [tk] ∧
        runTask (fun _ => false) tk =
          ⟨tk.inputTokens + tk.outputTokens, 1, []⟩) ∧
    (logUsageLoop (fun _ => false) 0 3 = (1, []) ∧
      logUsageLoop (fun _ => true) 0 3 = (0, [100, 200, 300]) ∧
      logUsageLoop (fun i => i == 0) 0 3 = (1, [100])) ∧
    (∀ req : ChatRequest, readErr = none → parsed = some req →
      req.messages.length ≤ 50 → modelAllowed tenant req.model = false →
      createCompletion tenant readErr bodyLen parsed modelLookup rh bh cb
          upstream start sseLines rawLen =
        earlyReply cb 403 (.errorMsg "Model not allowed for this tenant") ∧
      (createCompletion tenant readErr bodyLen parsed modelLookup rh bh cb
          upstream start sseLines rawLen).upstreamCalls = 0 ∧
      (createCompletion tenant readErr bodyLen parsed modelLookup rh bh cb
          upstream start sseLines rawLen).tasks = []) := by
  refine ⟨?_, ⟨by decide, by decide, by decide⟩, ?_⟩
  · intro h _ _
    obtain ⟨req, hp, ht⟩ := passthrough_tasks tenant readErr bodyLen parsed
      modelLookup rh bh cb upstream start sseLines rawLen s h
    exact ⟨_, ht, rfl⟩
  · intro req hre hp hm hallow
    subst hre hp
    have hgoal : createCompletion tenant none bodyLen (some req) modelLookup
        rh bh cb upstream start sseLines rawLen =
        earlyReply cb 403 (.errorMsg "Model not allowed for this tenant") := by
      unfold createCompletion
      dsimp only
      rw [if_neg (by omega), if_pos (by simp [hallow])]
    exact ⟨hgoal, by rw [hgoal]; rfl, by rw [hgoal]; rfl⟩

/-- Witness for `c9_usage_record_and_forbidden`: the concrete streamed
200 produces its one task; a tenant allowed only "claude-2" asking for
"gpt-4" gets the 403 with no upstream contact and no task. -/
theorem c9_usage_record_and_forbidden_witness :
    (∃ tk : Task,
      (createCompletion tStream none 43 (some ⟨"gpt-4", [], true⟩)
          (.ok (some gpt4Model)) "" "" CB.init (fun _ => .response 200) 0
          [⟨1, helloChunk⟩, ⟨2, worldChunk⟩, ⟨3, "data: [DONE]"⟩] 0).tasks =
        [tk] ∧
      runTask (fun _ => false) tk =
        ⟨tk.inputTokens + tk.outputTokens, 1, []⟩) ∧
    ((createCompletion ⟨"k", "t1", "n", 100, 100000, ["claude-2"], true⟩
        none 0 (some gpt4Req) (.ok (some gpt4Model)) "" "" CB.init always500
        0 [] 0).upstreamCalls = 0 ∧
      (createCompletion ⟨"k", "t1", "n", 100, 100000, ["claude-2"], true⟩
        none 0 (some gpt4Req) (.ok (some gpt4Model)) "" "" CB.init always500
        0 [] 0).tasks = []) := by
  constructor
  · exact (c9_usage_record_and_forbidden tStream none 43
      (some ⟨"gpt-4", [], true⟩) (.ok (some gpt4Model)) "" "" CB.init
      (fun _ => .response 200) 0
      [⟨1, helloChunk⟩, ⟨2, worldChunk⟩, ⟨3, "data: [DONE]"⟩] 0 200).1
      (by decide) (by decide) (by decide)
  · have h := (c9_usage_record_and_forbidden
      ⟨"k", "t1", "n", 100, 100000, ["claude-2"], true⟩ none 0
      (some gpt4Req) (.ok (some gpt4Model)) "" "" CB.init always500
      0 [] 0 0).2.2 gpt4Req rfl rfl (by decide) (by decide)
    exact ⟨h.2.1, h.2.2⟩

end LLMGateway
